import Mathlib

/-!
Verification of the streamlit-demo repository core:
the Titanic data-preparation pipeline (`titanic_wrangler.py`) and the
beer wait-time model (`beer_model.py`), shallowly embedded in Lean 4.

Tables are embedded as lists of records; every polars column operation
(`with_columns`, `group_by ... len / agg`, inner `join`, `sort`) is
translated to the corresponding list operation.  Polars semantics used:

* `with_columns` maps each row independently (row count preserved);
* `group_by k` yields one group per distinct key, including a group for
  the null key;
* inner `join(on=k)` keeps a left row only when some right row has an
  equal key, where a null key never equals anything (the polars default
  `nulls_equal=False` / `join_nulls=False`);
* `pl.when(cond)` treats a null condition as false (`otherwise` branch);
* `Expr.is_in` propagates null elements (null input gives null output);
* `fill_null(v)` replaces null by `v` and keeps non-null values;
* casting a float to an integer dtype truncates toward zero.

Floating-point numerics are idealised: table numerics as `ℚ`, the
`log10` used by the fare stage as an abstract parameter (its values are
never inspected by any property below), and the wait-time model over `ℝ`
with `Real.log`.
-/

namespace StreamlitDemo

/-! ### BeerWaitTimeModel (`beer_model.py`)

The function `calculate_parameters` is the closed-form parameter
computation of the lognormal wait-time model; `np.log` is idealised as
`Real.log`. -/

noncomputable def calculate_parameters (num_people : ℕ) (number_of_bar_staff : ℕ) : ℝ × ℝ :=
  let base_mu : ℝ := 1.0
  let base_sigma : ℝ := 0.5
  let crowd_factor : ℝ := Real.log (1 + (num_people : ℝ) / 50)
  let staff_effect : ℝ := Real.log (1 + (number_of_bar_staff : ℝ))
  let staff_factor : ℝ := 1 / staff_effect
  (base_mu + crowd_factor * 0.8 * staff_factor,
   base_sigma + crowd_factor * 0.3 * staff_factor)

/-! ### Title extraction (`_extract_title_from_name`)

The source applies `pl.col("Name").str.extract(r"^.* (.*?)\..*$", 1)`.
Under leftmost-first (backtracking) regex semantics the greedy leading
`.*` picks the *rightmost* space that still lets the rest match, i.e.
the rightmost space followed somewhere later by a period; the lazy
group then captures up to the *first* period after that space.  `scan`
realises exactly that: it recurses to the right first (preferring a
deeper, i.e. more-to-the-right, matching space) and only when no space
further right matches does it try the current position. -/

/-- Suffix match for ` (.*?)\..*$` at a given suffix: succeeds when the
suffix contains a period, capturing the characters before the first
period. -/
def captureAfter (cs : List Char) : Option (List Char) :=
  if ('.') ∈ cs then some (cs.takeWhile (fun c => c ≠ ('.'))) else none

/-- Backtracking search for the rightmost space followed by a period. -/
def scan : List Char → Option (List Char)
  | [] => none
  | c :: rest =>
    match scan rest with
    | some t => some t
    | none => if c = (' ') then captureAfter rest else none

/-- Evaluation of `pl.col("Name").str.extract(r"^.* (.*?)\..*$", 1)` on
one name; a non-matching name yields null. -/
def extract_title_from_name (name : String) : Option String :=
  (scan name.toList).map String.mk

/-! ### The Titanic table model (`titanic_wrangler.py`)

A polars `DataFrame` of passenger records is a `List Passenger`. A
`none` field is a null cell.  Numeric cells are modelled post-parse as
`Option ℚ`.  Columns added by the pipeline start as `none`.  The
`Survived` column is overwritten in place by the source's string
conversion; the model keeps the numeric input in `survived` and the
converted string column in `survivedLabel`. -/

structure Passenger where
  passengerId : Option ℚ := none
  survived : Option ℚ := none
  pclass : Option ℤ := none
  name : Option String := none
  sex : Option String := none
  age : Option ℚ := none
  sibSp : Option ℚ := none
  parch : Option ℚ := none
  ticket : Option String := none
  fare : Option ℚ := none
  cabin : Option String := none
  embarked : Option String := none
  title : Option String := none
  cabinOccupancy : Option ℕ := none
  ticketShareCount : Option ℕ := none
  level : Option String := none
  fareLog10 : Option ℚ := none
  ageInDecades : Option ℤ := none
  survivedLabel : Option String := none
deriving DecidableEq, Repr

/-- Stage `_coerce_numeric_columns`: casts PassengerId, Survived, Age,
SibSp, Parch, Fare to Float64 with `strict=False` (per-cell, never
dropping a row).  Numeric cells being modelled post-parse as
`Option ℚ`, the per-row cast is the identity here. -/
def coerce_numeric_columns (rows : List Passenger) : List Passenger :=
  rows.map (fun r => r)

def fillna_cabin_row (r : Passenger) : Passenger :=
  { r with cabin := some (r.cabin.getD ("None")) }

/-- Stage `_fillna_cabin`: `pl.col("Cabin").fill_null("None")`. -/
def fillna_cabin (rows : List Passenger) : List Passenger :=
  rows.map fillna_cabin_row

def fillna_fare_row (r : Passenger) : Passenger :=
  { r with fare := some (r.fare.getD 0) }

/-- Stage `_fillna_fare`: `pl.col("Fare").fill_null(0.0)`. -/
def fillna_fare (rows : List Passenger) : List Passenger :=
  rows.map fillna_fare_row

def fillna_embarked_row (r : Passenger) : Passenger :=
  { r with embarked := some (r.embarked.getD ("S")) }

/-- Stage `_fillna_embarked`: `pl.col("Embarked").fill_null("S")`. -/
def fillna_embarked (rows : List Passenger) : List Passenger :=
  rows.map fillna_embarked_row

def extract_title_row (r : Passenger) : Passenger :=
  { r with title := r.name.bind extract_title_from_name }

/-- Stage `_extract_title_from_name` on the table: the regex extraction
applied to the Name column (null Name gives null Title). -/
def extract_title_from_name_stage (rows : List Passenger) : List Passenger :=
  rows.map extract_title_row

/-- Aggregation `group_by("Title").len()`: one entry per distinct Title
value (the null Title group included). -/
def title_counts (rows : List Passenger) : List (Option String × ℕ) :=
  ((rows.map (fun r => r.title)).dedup).map
    (fun t => (t, (rows.map (fun r => r.title)).count t))

/-- Titles whose dataset-wide count is below 5. -/
def titles_to_consolidate (rows : List Passenger) : List (Option String) :=
  ((title_counts rows).filter (fun p => p.2 < 5)).map (fun p => p.1)

/-- One row of `_consolidate_titles`: `is_in` propagates a null Title,
so `when` takes the `otherwise` branch and the row is unchanged. -/
def consolidate_titles_row (toCons : List (Option String)) (r : Passenger) : Passenger :=
  match r.title with
  | none => r
  | some t => if some t ∈ toCons then { r with title := some ("Other") } else r

/-- Stage `_consolidate_titles`: dataset-wide counts first, then
rewrite. -/
def consolidate_titles (rows : List Passenger) : List Passenger :=
  rows.map (consolidate_titles_row (titles_to_consolidate rows))

/-- Occupancy assigned to a distinct Cabin value: its group size,
forced to 0 for the fill sentinel. -/
def cabin_occupancy_of (rows : List Passenger) (c : Option String) : ℕ :=
  if c = some ("None") then 0 else (rows.map (fun r => r.cabin)).count c

/-- Aggregation `group_by("Cabin").len()` with the sentinel forced
to 0. -/
def cabin_occupancy_table (rows : List Passenger) : List (Option String × ℕ) :=
  ((rows.map (fun r => r.cabin)).dedup).map
    (fun c => (c, cabin_occupancy_of rows c))

/-- Stage `_add_cabin_occupancy`: inner join on Cabin against the
occupancy table; a null Cabin key never matches (polars
`join_nulls=False`). -/
def add_cabin_occupancy (rows : List Passenger) : List Passenger :=
  rows.filterMap (fun r =>
    match r.cabin with
    | none => none
    | some c =>
      ((cabin_occupancy_table rows).find? (fun p => p.1 == some c)).map
        (fun p => { r with cabinOccupancy := some p.2 }))

def ticket_share_of (rows : List Passenger) (t : Option String) : ℕ :=
  (rows.map (fun r => r.ticket)).count t

/-- Aggregation `group_by("Ticket").len()`. -/
def ticket_share_table (rows : List Passenger) : List (Option String × ℕ) :=
  ((rows.map (fun r => r.ticket)).dedup).map
    (fun t => (t, ticket_share_of rows t))

/-- Stage `_add_ticket_sharing_count`: inner join on Ticket. -/
def add_ticket_sharing_count (rows : List Passenger) : List Passenger :=
  rows.filterMap (fun r =>
    match r.ticket with
    | none => none
    | some t =>
      ((ticket_share_table rows).find? (fun p => p.1 == some t)).map
        (fun p => { r with ticketShareCount := some p.2 }))

def extract_cabin_level_row (r : Passenger) : Passenger :=
  { r with level := r.cabin.map (fun c => String.mk (c.toList.take 1)) }

/-- Stage `_extract_cabin_level`: `pl.col("Cabin").str.slice(0, 1)`. -/
def extract_cabin_level (rows : List Passenger) : List Passenger :=
  rows.map extract_cabin_level_row

def add_log10_of_fare_row (log10 : ℚ → ℚ) (r : Passenger) : Passenger :=
  { r with fareLog10 := some (match r.fare with
      | some f => if 0 < f then log10 f else 0
      | none => 0) }

/-- Stage `_add_log10_of_fare`:
`when(Fare > 0).then(log10(Fare)).otherwise(0.0)`; a null comparison is
falsy, so a null Fare also lands on `0.0`.  The floating-point `log10`
is an abstract parameter. -/
def add_log10_of_fare (log10 : ℚ → ℚ) (rows : List Passenger) : List Passenger :=
  rows.map (add_log10_of_fare_row log10)

/-- Casting a nonnegative float to an integer dtype truncates. -/
def ratTruncToInt (q : ℚ) : ℤ :=
  q.num / (q.den : ℤ)

/-- Mean Age of a Title group (nulls ignored; empty group gives null),
cast to Int32. -/
def average_age_of (rows : List Passenger) (t : Option String) : Option ℤ :=
  let ages := (rows.filter (fun r => r.title == t)).filterMap (fun r => r.age)
  if ages.length = 0 then none
  else some (ratTruncToInt (ages.sum / (ages.length : ℚ)))

/-- Aggregation `group_by("Title").agg(mean(Age).cast(Int32))`. -/
def average_age_by_title (rows : List Passenger) : List (Option String × Option ℤ) :=
  ((rows.map (fun r => r.title)).dedup).map
    (fun t => (t, average_age_of rows t))

/-- Stage `_impute_missing_age_based_on_title`: inner join on Title (a
null Title key never matches), then fill a null Age from the group mean
(which may itself be null). -/
def impute_missing_age_based_on_title (rows : List Passenger) : List Passenger :=
  rows.filterMap (fun r =>
    match r.title with
    | none => none
    | some t =>
      ((average_age_by_title rows).find? (fun p => p.1 == some t)).map
        (fun p => { r with age := match r.age with
            | some a => some a
            | none => p.2.map (fun z => (z : ℚ)) }))

def calculate_decade_from_age_row (r : Passenger) : Passenger :=
  { r with ageInDecades := r.age.map (fun a => ⌊a / 10⌋) }

/-- Stage `_calculate_decade_from_age`: `Age // 10` (floor division,
null propagates). -/
def calculate_decade_from_age (rows : List Passenger) : List Passenger :=
  rows.map calculate_decade_from_age_row

def resolve_level_t_row (r : Passenger) : Passenger :=
  { r with level := r.level.map (fun l => if l = "T" then "A" else l) }

/-- Stage `_resolve_level_t`: Level `"T"` remapped to `"A"`, all else
kept (a null Level stays null via the falsy `when`). -/
def resolve_level_t (rows : List Passenger) : List Passenger :=
  rows.map resolve_level_t_row

/-- Stage `_convert_float_to_int`: casts AgeInDecades and Pclass to
Int32; both are already `Option ℤ` in the model, so the per-row cast is
the identity here. -/
def convert_float_to_int (rows : List Passenger) : List Passenger :=
  rows.map (fun r => r)

def convert_survived_to_string_row (r : Passenger) : Passenger :=
  { r with survivedLabel :=
      match r.survived with
      | some q =>
        if q = 1 then some ("Survived")
        else if q = 0 then some ("Died")
        else some (toString q)
      | none => none }

/-- Stage `_convert_survived_to_string`: 1 to `"Survived"`, 0 to
`"Died"`, null stays null, any other numeric value is carried into the
string column via the polars supertype cast. -/
def convert_survived_to_string (rows : List Passenger) : List Passenger :=
  rows.map convert_survived_to_string_row

def convert_embarked_to_location_names_row (r : Passenger) : Passenger :=
  { r with embarked := r.embarked.map (fun e =>
      if e = "S" then ("Southampton")
      else if e = "C" then ("Cherbourg")
      else if e = "Q" then ("Queenstown")
      else e) }

/-- Stage `_convert_embarked_to_location_names`: `map_elements` with a
defaulting dictionary lookup; nulls are skipped by `map_elements`. -/
def convert_embarked_to_location_names (rows : List Passenger) : List Passenger :=
  rows.map convert_embarked_to_location_names_row

/-- Pipeline `prepare_data`: the fixed ordered composition of the 16
stages. -/
def prepare_data (log10 : ℚ → ℚ) (rows : List Passenger) : List Passenger :=
  convert_embarked_to_location_names
    (convert_survived_to_string
      (convert_float_to_int
        (resolve_level_t
          (calculate_decade_from_age
            (impute_missing_age_based_on_title
              (add_log10_of_fare log10
                (extract_cabin_level
                  (add_ticket_sharing_count
                    (add_cabin_occupancy
                      (consolidate_titles
                        (extract_title_from_name_stage
                          (fillna_embarked
                            (fillna_fare
                              (fillna_cabin
                                (coerce_numeric_columns rows)))))))))))))))

/-! ### `calculate_survival_rate`

The ungrouped arm works on the Survived column alone; the grouped arm
on (group key, Survived) pairs, one stat per distinct key, sorted
ascending by category. -/

structure SurvivalStat where
  category : String
  totalCount : ℕ
  survivedCount : ℕ
  survivalRate : ℚ
deriving DecidableEq, Repr

/-- Function `calculate_survival_rate(data)` with
`group_by_column=None`: the whole-table row with the explicit
division-by-zero guard. -/
def calculate_survival_rate_overall (data : List (Option String)) : SurvivalStat :=
  let total_count := data.length
  let survived_count := (data.filter (fun s => s == some ("Survived"))).length
  { category := "Overall"
    totalCount := total_count
    survivedCount := survived_count
    survivalRate :=
      if 0 < total_count then (survived_count : ℚ) / (total_count : ℚ) * 100 else 0 }

/-- The aggregate produced for one distinct value of the grouping
column: `pl.len()` and the filtered `len`, then the unguarded rate. -/
def survival_stat_of (data : List (String × Option String)) (k : String) : SurvivalStat :=
  let grp := data.filter (fun p => p.1 == k)
  let survived := (grp.filter (fun p => p.2 == some ("Survived"))).length
  { category := k
    totalCount := grp.length
    survivedCount := survived
    survivalRate := (survived : ℚ) / (grp.length : ℚ) * 100 }

/-- Function `calculate_survival_rate(data, group_by_column)`: one stat
per distinct key, sorted ascending by `Category`. -/
def calculate_survival_rate_grouped (data : List (String × Option String)) :
    List SurvivalStat :=
  List.insertionSort (fun a b => a.category ≤ b.category)
    (((data.map (fun p => p.1)).dedup).map (survival_stat_of data))

/-! ### `load_titanic_data`

The filesystem and the CSV parser are external collaborators: the model
takes the existence of the path and the parser's outcome as inputs and
embeds the function's own control flow (existence check first, then the
wrapped parse). -/

inductive LoadFailure where
  | fileNotFoundError (path : String)
  | runtimeError (path : String) (cause : String)
deriving DecidableEq, Repr

/-- Loader `load_titanic_data`: raises `FileNotFoundError` when the
path does not exist, wraps any parse failure in a `RuntimeError`, and
otherwise returns the parsed frame unchanged. -/
def load_titanic_data (data_path : String) (path_exists : Bool)
    (read_csv : Except String (List Passenger)) : Except LoadFailure (List Passenger) :=
  if path_exists = false then
    Except.error (LoadFailure.fileNotFoundError data_path)
  else
    match read_csv with
    | Except.ok df => Except.ok df
    | Except.error e => Except.error (LoadFailure.runtimeError data_path e)

/-! ### Concrete example tables used by the claims -/

def cabinExampleRows : List Passenger :=
  [{ cabin := some ("A1") }, { cabin := some ("A1") }, { cabin := some ("B2") },
   { cabin := some ("None") }, { cabin := some ("None") }, { cabin := some ("C3") }]

def titleExampleRows : List Passenger :=
  List.replicate 5 { title := some ("Mr") } ++
  List.replicate 5 { title := some ("Miss") } ++
  List.replicate 2 { title := some ("Dr") } ++
  [{ title := some ("Rev") }, { title := some ("Col") }, { title := some ("Major") }]

def exGroupData : List (String × Option String) :=
  [("2", some ("Died")), ("1", some ("Survived")), ("1", none)]

def titleLessRow : Passenger := { name := some ("X"), ticket := some ("T1") }

def pipelineWitnessRows : List Passenger :=
  [{ name := some ("Braund, Mr. Owen Harris"), ticket := some ("A/5 21171") },
   { name := some ("Allen, Miss. Elisabeth Walton"), ticket := some ("PC 17599") }]

/-! ### Generic list lemmas -/

/-- From an optional index lookup to membership. -/
theorem mem_of_getElem?_some {α : Type} {l : List α} {i : ℕ} {a : α}
    (h : l[i]? = some a) : a ∈ l :=
  List.get?_mem (by simpa [List.get?_eq_getElem?] using h)

/-- Lookup with `find?` in a key/value table built from a list of keys:
the first entry whose key equals `a` is `(a, g a)` as soon as `a`
occurs in the key list. -/
theorem find?_map_pair {α β : Type} [BEq α] [LawfulBEq α] (g : α → β) (a : α) :
    ∀ l : List α, a ∈ l →
      (l.map (fun x => (x, g x))).find? (fun p => p.1 == a) = some (a, g a) := by
  intro l hl
  induction l with
  | nil => cases hl
  | cons x xs ih =>
    rw [List.map_cons, List.find?_cons]
    by_cases hx : x = a
    · subst hx
      simp
    · have hfalse : (((x, g x)).1 == a) = false := by
        simp [hx]
      rw [hfalse]
      exact ih (by
        rcases List.mem_cons.mp hl with h | h
        · exact absurd h.symm hx
        · exact h)

/-- A `filterMap` whose function succeeds on every element of the list
is a `map`. -/
theorem filterMap_eq_map_of_some {α β : Type} (f : α → Option β) (g : α → β) :
    ∀ l : List α, (∀ a ∈ l, f a = some (g a)) → l.filterMap f = l.map g := by
  intro l h
  induction l with
  | nil => rfl
  | cons x xs ih =>
    rw [List.filterMap_cons, h x (List.mem_cons_self x xs), List.map_cons]
    rw [ih (fun a ha => h a (List.mem_cons_of_mem x ha))]

/-- Running `takeWhile` past a prefix on which the predicate holds
stops at the first element refuting it. -/
theorem takeWhile_append_cons {α : Type} (p : α → Bool) (y : α) (hy : p y = false) :
    ∀ (xs ys : List α), (∀ c ∈ xs, p c = true) →
      (xs ++ y :: ys).takeWhile p = xs := by
  intro xs ys hxs
  induction xs with
  | nil => simp [List.takeWhile_cons, hy]
  | cons x l ih =>
    have hx := hxs x (List.mem_cons_self x l)
    simp [List.takeWhile_cons, hx, ih (fun c hc => hxs c (List.mem_cons_of_mem x hc))]

/-- Transport of a rowwise fact through a map stage. -/
theorem forall_mem_map {α β : Type} (P : α → Prop) (Q : β → Prop) {l : List α}
    {f : α → β} (hf : ∀ a, P a → Q (f a)) (h : ∀ a ∈ l, P a) :
    ∀ b ∈ l.map f, Q b := by
  intro b hb
  rcases List.mem_map.mp hb with ⟨a, ha, rfl⟩
  exact hf a (h a ha)

/-! ### Wait-time model lemmas and claims C7, C10 -/

theorem calculate_parameters_mu (n s : ℕ) :
    (calculate_parameters n s).1 =
      1.0 + Real.log (1 + (n : ℝ) / 50) * 0.8 * (1 / Real.log (1 + (s : ℝ))) := rfl

theorem calculate_parameters_sigma (n s : ℕ) :
    (calculate_parameters n s).2 =
      0.5 + Real.log (1 + (n : ℝ) / 50) * 0.3 * (1 / Real.log (1 + (s : ℝ))) := rfl

theorem crowd_factor_pos {n : ℕ} (hn : 0 < n) :
    0 < Real.log (1 + (n : ℝ) / 50) := by
  apply Real.log_pos
  have : (0 : ℝ) < (n : ℝ) / 50 := by
    apply div_pos _ (by norm_num)
    exact_mod_cast hn
  linarith

theorem crowd_factor_lt {n1 n2 : ℕ} (h : n1 < n2) :
    Real.log (1 + (n1 : ℝ) / 50) < Real.log (1 + (n2 : ℝ) / 50) := by
  apply Real.log_lt_log
  · have : (0 : ℝ) ≤ (n1 : ℝ) / 50 := by positivity
    linarith
  · have : (n1 : ℝ) < (n2 : ℝ) := by exact_mod_cast h
    have : (n1 : ℝ) / 50 < (n2 : ℝ) / 50 := by linarith
    linarith

theorem staff_effect_pos {s : ℕ} (hs : 1 ≤ s) :
    0 < Real.log (1 + (s : ℝ)) := by
  apply Real.log_pos
  have : (1 : ℝ) ≤ (s : ℝ) := by exact_mod_cast hs
  linarith

/-- C7: `calculate_parameters` is the stated closed form and is a pure
deterministic function: equal arguments give the identical pair. -/
theorem calculate_parameters_closed_form_and_deterministic :
    (∀ n s : ℕ,
      calculate_parameters n s =
        (1.0 + Real.log (1 + (n : ℝ) / 50) * 0.8 * (1 / Real.log (1 + (s : ℝ))),
         0.5 + Real.log (1 + (n : ℝ) / 50) * 0.3 * (1 / Real.log (1 + (s : ℝ))))) ∧
    (∀ n s n' s' : ℕ, n = n' → s = s' →
      calculate_parameters n s = calculate_parameters n' s') := by
  constructor
  · intro n s
    rfl
  · intro n s n' s' hn hs
    rw [hn, hs]

theorem calculate_parameters_closed_form_witness :
    (calculate_parameters 100 2 =
      (1.0 + Real.log (1 + (100 : ℝ) / 50) * 0.8 * (1 / Real.log (1 + (2 : ℝ))),
       0.5 + Real.log (1 + (100 : ℝ) / 50) * 0.3 * (1 / Real.log (1 + (2 : ℝ))))) ∧
    calculate_parameters 100 2 = calculate_parameters 100 2 :=
  ⟨calculate_parameters_closed_form_and_deterministic.1 100 2,
   calculate_parameters_closed_form_and_deterministic.2 100 2 100 2 rfl rfl⟩

/-- C10: for fixed staff ≥ 1 both `mu` and `sigma` strictly increase in
`num_people`, and for fixed `num_people > 0` both strictly decrease in
`number_of_bar_staff`. -/
theorem calculate_parameters_monotone :
    (∀ s n1 n2 : ℕ, 1 ≤ s → n1 < n2 →
      (calculate_parameters n1 s).1 < (calculate_parameters n2 s).1 ∧
      (calculate_parameters n1 s).2 < (calculate_parameters n2 s).2) ∧
    (∀ n s1 s2 : ℕ, 0 < n → 1 ≤ s1 → s1 < s2 →
      (calculate_parameters n s2).1 < (calculate_parameters n s1).1 ∧
      (calculate_parameters n s2).2 < (calculate_parameters n s1).2) := by
  constructor
  · intro s n1 n2 hs hn
    have hf : 0 < 1 / Real.log (1 + (s : ℝ)) := by
      exact one_div_pos.mpr (staff_effect_pos hs)
    have hc := crowd_factor_lt hn
    constructor
    · rw [calculate_parameters_mu, calculate_parameters_mu]
      have h8 : Real.log (1 + (n1 : ℝ) / 50) * 0.8 < Real.log (1 + (n2 : ℝ) / 50) * 0.8 := by
        exact mul_lt_mul_of_pos_right hc (by norm_num)
      exact add_lt_add_left (mul_lt_mul_of_pos_right h8 hf) _
    · rw [calculate_parameters_sigma, calculate_parameters_sigma]
      have h3 : Real.log (1 + (n1 : ℝ) / 50) * 0.3 < Real.log (1 + (n2 : ℝ) / 50) * 0.3 := by
        exact mul_lt_mul_of_pos_right hc (by norm_num)
      exact add_lt_add_left (mul_lt_mul_of_pos_right h3 hf) _
  · intro n s1 s2 hn hs1 hs
    have hc : 0 < Real.log (1 + (n : ℝ) / 50) := crowd_factor_pos hn
    have he1 : 0 < Real.log (1 + (s1 : ℝ)) := staff_effect_pos hs1
    have helt : Real.log (1 + (s1 : ℝ)) < Real.log (1 + (s2 : ℝ)) := by
      apply Real.log_lt_log (by positivity)
      have : (s1 : ℝ) < (s2 : ℝ) := by exact_mod_cast hs
      linarith
    have hflt : 1 / Real.log (1 + (s2 : ℝ)) < 1 / Real.log (1 + (s1 : ℝ)) :=
      one_div_lt_one_div_of_lt he1 helt
    constructor
    · rw [calculate_parameters_mu, calculate_parameters_mu]
      apply add_lt_add_left
      exact mul_lt_mul_of_pos_left hflt (by positivity)
    · rw [calculate_parameters_sigma, calculate_parameters_sigma]
      apply add_lt_add_left
      exact mul_lt_mul_of_pos_left hflt (by positivity)

theorem calculate_parameters_monotone_witness :
    ((calculate_parameters 10 1).1 < (calculate_parameters 20 1).1 ∧
     (calculate_parameters 10 1).2 < (calculate_parameters 20 1).2) ∧
    ((calculate_parameters 10 3).1 < (calculate_parameters 10 1).1 ∧
     (calculate_parameters 10 3).2 < (calculate_parameters 10 1).2) :=
  ⟨calculate_parameters_monotone.1 1 10 20 (le_refl 1) (by norm_num),
   calculate_parameters_monotone.2 10 1 3 (by norm_num) (le_refl 1) (by norm_num)⟩

/-! ### Title-extraction lemmas and claim C2 -/

theorem scan_eq_none_of_no_dot : ∀ cs : List Char, ('.') ∉ cs → scan cs = none := by
  intro cs h
  induction cs with
  | nil => rfl
  | cons c rest ih =>
    have hrest : ('.') ∉ rest := fun hr => h (List.mem_cons_of_mem c hr)
    rw [scan, ih hrest]
    by_cases hc : c = (' ')
    · simp [hc, captureAfter, hrest]
    · simp [hc]

theorem scan_append_of_isSome (xs : List Char) {ys : List Char}
    (h : (scan ys).isSome) : scan (xs ++ ys) = scan ys := by
  induction xs with
  | nil => rfl
  | cons x l ih =>
    rw [List.cons_append, scan, ih]
    rcases Option.isSome_iff_exists.mp h with ⟨t, ht⟩
    rw [ht]

/-- The scan is `none` exactly when no space is followed by a later
period. -/
theorem scan_eq_none_iff : ∀ cs : List Char,
    scan cs = none ↔ ∀ xs ys : List Char, cs = xs ++ (' ') :: ys → ('.') ∉ ys := by
  intro cs
  induction cs with
  | nil =>
    constructor
    · intro _ xs ys hx
      exact absurd hx.symm (List.append_ne_nil_of_right_ne_nil xs (List.cons_ne_nil _ _))
    · intro _
      rfl
  | cons c rest ih =>
    constructor
    · intro h xs ys hx
      have hparts : scan rest = none ∧ (c = (' ') → captureAfter rest = none) := by
        rw [scan] at h
        rcases hrs : scan rest with _ | t
        · refine ⟨rfl, fun hc => ?_⟩
          rw [hrs, hc, if_pos rfl] at h
          exact h
        · rw [hrs] at h
          cases h
      cases xs with
      | nil =>
        have hc : c = (' ') ∧ rest = ys := by
          have := hx
          simp only [List.nil_append, List.cons.injEq] at this
          exact this
        rcases hc with ⟨hc, hrest⟩
        have := hparts.2 hc
        rw [captureAfter] at this
        subst hrest
        by_cases hd : ('.') ∈ rest
        · rw [if_pos hd] at this
          cases this
        · exact hd
      | cons x xs =>
        have hx' : c = x ∧ rest = xs ++ (' ') :: ys := by
          have := hx
          simp only [List.cons_append, List.cons.injEq] at this
          exact this
        exact (ih.mp hparts.1) xs ys hx'.2
    · intro h
      have hrest : scan rest = none := by
        apply ih.mpr
        intro xs ys hx
        exact h (c :: xs) ys (by rw [hx, List.cons_append])
      rw [scan, hrest]
      by_cases hc : c = (' ')
      · rw [if_pos hc]
        have hd : ('.') ∉ rest := h [] rest (by rw [hc, List.nil_append])
        rw [captureAfter, if_neg hd]
      · rw [if_neg hc]

/-- In `T ++ '.' :: R` with no space in `T` and no period in `R`, no
space is followed by a later period: any space lies inside `R`, and all
characters after it are inside `R` too. -/
theorem no_dot_after_space (T R : List Char) (h1 : (' ') ∉ T) (h3 : ('.') ∉ R) :
    ∀ xs ys : List Char, T ++ ('.') :: R = xs ++ (' ') :: ys → ('.') ∉ ys := by
  induction T with
  | nil =>
    intro xs ys hx
    cases xs with
    | nil =>
      simp only [List.nil_append, List.cons.injEq] at hx
      cases hx.1
    | cons x xs' =>
      simp only [List.nil_append, List.cons_append, List.cons.injEq] at hx
      intro hdy
      exact h3 (hx.2 ▸ List.mem_append_right xs' (List.mem_cons_of_mem _ hdy))
  | cons t T' ih =>
    intro xs ys hx
    cases xs with
    | nil =>
      simp only [List.cons_append, List.nil_append, List.cons.injEq] at hx
      exact absurd (hx.1 ▸ List.mem_cons_self t T') h1
    | cons x xs' =>
      simp only [List.cons_append, List.cons.injEq] at hx
      exact ih (fun hm => h1 (List.mem_cons_of_mem t hm)) xs' ys hx.2

/-- On names of the shape `last ++ ", " ++ title ++ "." ++ rest` where
the title token has no space or period and the remainder has no period,
the capture is exactly the title token. -/
theorem extract_title_of_shape (last title rest : String)
    (h1 : (' ') ∉ title.toList) (h2 : ('.') ∉ title.toList)
    (h3 : ('.') ∉ rest.toList) :
    extract_title_from_name (last ++ ", " ++ title ++ "." ++ rest) = some title := by
  have hname : (last ++ ", " ++ title ++ "." ++ rest).toList
      = last.toList ++ (',') :: (' ') :: (title.toList ++ ('.') :: rest.toList) := by
    rcases last with ⟨l⟩
    rcases title with ⟨t⟩
    rcases rest with ⟨r⟩
    show (l ++ ([','] ++ [' ']) ++ t ++ ['.'] ++ r) = _
    simp
  have htail : scan (title.toList ++ ('.') :: rest.toList) = none :=
    (scan_eq_none_iff _).mpr (no_dot_after_space _ _ h1 h3)
  have hcapture : captureAfter (title.toList ++ ('.') :: rest.toList)
      = some title.toList := by
    rw [captureAfter,
      if_pos (List.mem_append_right _ (List.mem_cons_self _ _)),
      takeWhile_append_cons _ ('.') (by simp) _ _
        (fun c hc => by
          simp only [ne_eq, decide_eq_true_eq]
          intro heq
          exact h2 (heq ▸ hc))]
  have hspace : scan ((' ') :: (title.toList ++ ('.') :: rest.toList))
      = some title.toList := by
    rw [scan, htail, if_pos rfl, hcapture]
  have hcomma : scan ((',') :: (' ') :: (title.toList ++ ('.') :: rest.toList))
      = some title.toList := by
    rw [scan, hspace]
  rw [extract_title_from_name, hname, scan_append_of_isSome _ (by rw [hcomma]; rfl),
    hcomma]
  rcases title with ⟨t⟩
  rfl

/-- C2 counterexample: the extraction regex does not require a comma.
The comma-free name `"John Smith."` yields the non-null Title
`"Smith"`, refuting "for every Name without a comma the extracted
Title is null". -/
theorem extract_title_comma_free_counterexample :
    (',') ∉ ("John Smith.").toList ∧
    extract_title_from_name ("John Smith.") = some ("Smith") := by
  decide

/-- C2 (amended): the Title is null exactly when no space of the Name
is followed by a later period (no comma is involved); and on a name
`last ++ ", " ++ title ++ "." ++ rest` whose title token holds no space
or period and whose remainder holds no period, the captured token is
the title. -/
theorem extract_title_characterization :
    (∀ name : String, extract_title_from_name name = none ↔
      ∀ xs ys : List Char, name.toList = xs ++ (' ') :: ys → ('.') ∉ ys) ∧
    (∀ last title rest : String,
      (' ') ∉ title.toList → ('.') ∉ title.toList → ('.') ∉ rest.toList →
      extract_title_from_name (last ++ ", " ++ title ++ "." ++ rest) = some title) := by
  constructor
  · intro name
    rw [extract_title_from_name, Option.map_eq_none']
    exact scan_eq_none_iff name.toList
  · exact extract_title_of_shape

theorem extract_title_characterization_witness :
    extract_title_from_name ("Braund" ++ ", " ++ "Mr" ++ "." ++ " Owen Harris") =
      some ("Mr") :=
  extract_title_characterization.2 ("Braund") ("Mr") (" Owen Harris")
    (by decide) (by decide) (by decide)

/-! ### Loader claim C8 -/

/-- C8: `load_titanic_data` fails with the not-found error exactly when
the source path does not exist, wraps the parser's failure in the load
error exactly when the content is malformed, and otherwise returns the
parsed rows unchanged (performing no coercion of its own). -/
theorem load_titanic_data_spec :
    (∀ (path : String) (t : Except String (List Passenger)),
      load_titanic_data path false t =
        Except.error (LoadFailure.fileNotFoundError path)) ∧
    (∀ (path : String) (e : String),
      load_titanic_data path true (Except.error e) =
        Except.error (LoadFailure.runtimeError path e)) ∧
    (∀ (path : String) (rows : List Passenger),
      load_titanic_data path true (Except.ok rows) = Except.ok rows) :=
  ⟨fun _ _ => rfl, fun _ _ => rfl, fun _ _ => rfl⟩

/-! ### Cabin level claim C9 -/

/-- C9: a record whose raw Cabin is null is filled with the sentinel,
its Level becomes the sentinel's first character `"N"`, and the
Level-T resolution stage leaves that `"N"` unchanged. -/
theorem level_of_null_cabin (rows : List Passenger) (i : ℕ) (r : Passenger)
    (hr : rows[i]? = some r) (hc : r.cabin = none) :
    ((extract_cabin_level (fillna_cabin rows))[i]?).map (fun p => p.level) =
      some (some ("N")) ∧
    ((resolve_level_t (extract_cabin_level (fillna_cabin rows)))[i]?).map
      (fun p => p.level) = some (some ("N")) := by
  unfold resolve_level_t extract_cabin_level fillna_cabin
  constructor
  · rw [List.getElem?_map, List.getElem?_map, hr]
    simp only [Option.map_some']
    simp [extract_cabin_level_row, fillna_cabin_row, hc]
  · rw [List.getElem?_map, List.getElem?_map, List.getElem?_map, hr]
    simp only [Option.map_some']
    simp [resolve_level_t_row, extract_cabin_level_row, fillna_cabin_row, hc]

theorem level_of_null_cabin_witness :
    ((extract_cabin_level (fillna_cabin [({ cabin := none } : Passenger)]))[0]?).map
      (fun p => p.level) = some (some ("N")) ∧
    ((resolve_level_t (extract_cabin_level
        (fillna_cabin [({ cabin := none } : Passenger)])))[0]?).map
      (fun p => p.level) = some (some ("N")) :=
  level_of_null_cabin [{ cabin := none }] 0 { cabin := none } rfl rfl

/-! ### Cabin occupancy claim C5 -/

/-- When every Cabin is non-null (as after `_fillna_cabin`), the join
matches every row and `_add_cabin_occupancy` is a per-row map. -/
theorem add_cabin_occupancy_eq_map (rows : List Passenger)
    (h : ∀ r ∈ rows, r.cabin ≠ none) :
    add_cabin_occupancy rows =
      rows.map (fun r => { r with cabinOccupancy := some (cabin_occupancy_of rows r.cabin) }) := by
  apply filterMap_eq_map_of_some
  intro r hr
  rcases hrc : r.cabin with _ | c
  · exact absurd hrc (h r hr)
  · have hmem : some c ∈ (rows.map (fun p => p.cabin)).dedup :=
      List.mem_dedup.mpr (List.mem_map.mpr ⟨r, hr, hrc⟩)
    simp only [hrc]
    rw [cabin_occupancy_table, find?_map_pair (cabin_occupancy_of rows) (some c) _ hmem,
      Option.map_some']

/-- C5: after the cabin fill, a sentinel `"None"` cabin gets occupancy
0 however many rows share it, and any other row's occupancy is the
number of rows sharing its Cabin; Cabins `[A1,A1,B2,None,None,C3]`
give `[2,2,1,0,0,1]`. -/
theorem add_cabin_occupancy_spec :
    (∀ rows : List Passenger, (∀ r ∈ rows, r.cabin ≠ none) →
      ∀ i : ℕ, ((add_cabin_occupancy rows)[i]?).map (fun p => p.cabinOccupancy) =
        (rows[i]?).map (fun r =>
          some (if r.cabin = some ("None") then 0
                else (rows.map (fun p => p.cabin)).count r.cabin))) ∧
    ((add_cabin_occupancy cabinExampleRows).map (fun r => r.cabinOccupancy) =
      [some 2, some 2, some 1, some 0, some 0, some 1]) := by
  constructor
  · intro rows h i
    rw [add_cabin_occupancy_eq_map rows h, List.getElem?_map]
    rcases rows[i]? with _ | r
    · rfl
    · simp [cabin_occupancy_of]
  · decide

theorem add_cabin_occupancy_spec_witness :
    ((add_cabin_occupancy cabinExampleRows)[0]?).map (fun p => p.cabinOccupancy) =
      (cabinExampleRows[0]?).map (fun r =>
        some (if r.cabin = some ("None") then 0
              else (cabinExampleRows.map (fun p => p.cabin)).count r.cabin)) :=
  add_cabin_occupancy_spec.1 cabinExampleRows (by decide) 0

/-! ### Title consolidation claim C3 -/

/-- A non-null Title occurring in the table is scheduled for
consolidation exactly when its dataset-wide count is below 5. -/
theorem mem_titles_to_consolidate (rows : List Passenger) (t : String)
    (hocc : some t ∈ rows.map (fun r => r.title)) :
    some t ∈ titles_to_consolidate rows ↔
      (rows.map (fun r => r.title)).count (some t) < 5 := by
  unfold titles_to_consolidate title_counts
  constructor
  · intro hmem
    rcases List.mem_map.mp hmem with ⟨p, hp, hpt⟩
    rcases List.mem_filter.mp hp with ⟨hp1, hp2⟩
    rcases List.mem_map.mp hp1 with ⟨t', _, hteq⟩
    have ht' : t' = some t := by
      rw [← hteq] at hpt
      exact hpt
    rw [← hteq, ht'] at hp2
    simpa using hp2
  · intro hcount
    apply List.mem_map.mpr
    refine ⟨(some t, (rows.map (fun r => r.title)).count (some t)), ?_, rfl⟩
    apply List.mem_filter.mpr
    exact ⟨List.mem_map.mpr ⟨some t, List.mem_dedup.mpr hocc, rfl⟩, by simpa using hcount⟩

/-- Row-level effect of consolidation on a non-null Title. -/
theorem consolidate_titles_row_title (toCons : List (Option String)) (r : Passenger)
    (t : String) (ht : r.title = some t) :
    (consolidate_titles_row toCons r).title =
      if some t ∈ toCons then some ("Other") else some t := by
  unfold consolidate_titles_row
  rw [ht]
  by_cases hmem : some t ∈ toCons
  · simp [hmem]
  · simp [hmem, ht]

/-- C3: consolidation counts each Title over the whole table and
rewrites exactly the rows whose Title has dataset-wide count below 5 to
`"Other"`; titles Mr×5, Miss×5, Dr×2, Rev×1, Col×1, Major×1 become
Mr×5, Miss×5, Other×5. -/
theorem consolidate_titles_spec :
    (∀ (rows : List Passenger) (i : ℕ) (r : Passenger) (t : String),
      rows[i]? = some r → r.title = some t →
      ((consolidate_titles rows)[i]?).map (fun p => p.title) =
        some (some (if (rows.map (fun p => p.title)).count (some t) < 5
                    then ("Other") else t))) ∧
    ((consolidate_titles titleExampleRows).map (fun r => r.title) =
      List.replicate 5 (some ("Mr")) ++ List.replicate 5 (some ("Miss")) ++
      List.replicate 5 (some ("Other"))) := by
  constructor
  · intro rows i r t hr ht
    have hocc : some t ∈ rows.map (fun p => p.title) :=
      List.mem_map.mpr ⟨r, mem_of_getElem?_some hr, ht⟩
    rw [consolidate_titles, List.getElem?_map, hr, Option.map_some', Option.map_some',
      consolidate_titles_row_title _ r t ht]
    by_cases hcnt : (rows.map (fun p => p.title)).count (some t) < 5
    · rw [if_pos ((mem_titles_to_consolidate rows t hocc).mpr hcnt), if_pos hcnt]
    · rw [if_neg (fun hm => hcnt ((mem_titles_to_consolidate rows t hocc).mp hm)),
        if_neg hcnt]
  · decide

theorem consolidate_titles_spec_witness :
    ((consolidate_titles titleExampleRows)[10]?).map (fun p => p.title) =
      some (some (if (titleExampleRows.map (fun p => p.title)).count (some ("Dr")) < 5
                  then ("Other") else "Dr")) :=
  consolidate_titles_spec.1 titleExampleRows 10 { title := some ("Dr") } "Dr"
    (by decide) rfl

/-! ### Survival-rate claims C4 and C6 -/

/-- C4: every grouped stat has `SurvivalRate = SurvivedCount/TotalCount×100`
with `SurvivedCount` counting only the exact string `"Survived"` inside
the stat's group (null Survived counts toward the total only); the
output is sorted ascending by Category; and the ungrouped call returns
the single `"Overall"` row, e.g. rate 60 on the five-row example. -/
theorem calculate_survival_rate_spec :
    (∀ (data : List (String × Option String)) (st : SurvivalStat),
      st ∈ calculate_survival_rate_grouped data →
      st.totalCount = (data.filter (fun p => p.1 == st.category)).length ∧
      st.survivedCount = ((data.filter (fun p => p.1 == st.category)).filter
        (fun p => p.2 == some ("Survived"))).length ∧
      st.survivalRate = (st.survivedCount : ℚ) / (st.totalCount : ℚ) * 100) ∧
    (∀ data : List (String × Option String),
      List.Pairwise (fun a b : SurvivalStat => a.category ≤ b.category)
        (calculate_survival_rate_grouped data)) ∧
    (calculate_survival_rate_overall
        [some ("Survived"), some ("Died"), some ("Survived"), some ("Died"),
         some ("Survived")] =
      { category := "Overall", totalCount := 5, survivedCount := 3,
        survivalRate := 60 }) := by
  refine ⟨?_, ?_, by simp [calculate_survival_rate_overall]; norm_num⟩
  · intro data st hst
    have hst' : st ∈ ((data.map (fun p => p.1)).dedup).map (survival_stat_of data) :=
      ((List.perm_insertionSort _ _).mem_iff).mp hst
    rcases List.mem_map.mp hst' with ⟨k, _, rfl⟩
    exact ⟨rfl, rfl, rfl⟩
  · intro data
    haveI : IsTotal SurvivalStat (fun a b => a.category ≤ b.category) :=
      ⟨fun a b => le_total a.category b.category⟩
    haveI : IsTrans SurvivalStat (fun a b => a.category ≤ b.category) :=
      ⟨fun a b c h1 h2 => le_trans h1 h2⟩
    exact List.sorted_insertionSort _ _

theorem calculate_survival_rate_spec_witness :
    (survival_stat_of exGroupData "1").totalCount =
      (exGroupData.filter
        (fun p => p.1 == (survival_stat_of exGroupData "1").category)).length ∧
    (survival_stat_of exGroupData "1").survivedCount =
      ((exGroupData.filter
        (fun p => p.1 == (survival_stat_of exGroupData "1").category)).filter
        (fun p => p.2 == some ("Survived"))).length ∧
    (survival_stat_of exGroupData "1").survivalRate =
      ((survival_stat_of exGroupData "1").survivedCount : ℚ) /
        ((survival_stat_of exGroupData "1").totalCount : ℚ) * 100 :=
  calculate_survival_rate_spec.1 exGroupData (survival_stat_of exGroupData "1")
    (((List.perm_insertionSort _ _).mem_iff).mpr
      (List.mem_map.mpr ⟨"1", by decide, rfl⟩))

/-- C6: the rate computation never divides by zero: the ungrouped arm
guards `TotalCount = 0` (in particular the empty table gives the
`"Overall"` row with rate 0.0), and every group of the grouped arm is
non-empty, so its `TotalCount` is positive. -/
theorem survival_rate_zero_guard :
    (calculate_survival_rate_overall ([] : List (Option String)) =
      { category := "Overall", totalCount := 0, survivedCount := 0,
        survivalRate := 0 }) ∧
    (∀ data : List (Option String),
      (calculate_survival_rate_overall data).totalCount = 0 →
      (calculate_survival_rate_overall data).survivalRate = 0) ∧
    (∀ (data : List (String × Option String)) (st : SurvivalStat),
      st ∈ calculate_survival_rate_grouped data → 0 < st.totalCount) := by
  refine ⟨by decide, ?_, ?_⟩
  · intro data h
    have hlen : data.length = 0 := h
    unfold calculate_survival_rate_overall
    simp [hlen]
  · intro data st hst
    have hst' : st ∈ ((data.map (fun p => p.1)).dedup).map (survival_stat_of data) :=
      ((List.perm_insertionSort _ _).mem_iff).mp hst
    rcases List.mem_map.mp hst' with ⟨k, hk, rfl⟩
    rcases List.mem_map.mp (List.mem_dedup.mp hk) with ⟨q, hq, hqk⟩
    show 0 < (data.filter (fun p => p.1 == k)).length
    exact List.length_pos.mpr
      (List.ne_nil_of_mem (List.mem_filter.mpr ⟨hq, by simp [hqk]⟩))

theorem survival_rate_zero_guard_witness :
    (calculate_survival_rate_overall ([] : List (Option String))).survivalRate = 0 ∧
    0 < (survival_stat_of [(("1" : String), some ("Survived"))] "1").totalCount :=
  ⟨survival_rate_zero_guard.2.1 [] rfl,
   survival_rate_zero_guard.2.2 [(("1" : String), some ("Survived"))]
     (survival_stat_of [(("1" : String), some ("Survived"))] "1")
     (((List.perm_insertionSort _ _).mem_iff).mpr
       (List.mem_map.mpr ⟨"1", by decide, rfl⟩))⟩

/-! ### Row-count claim C1 -/

/-- When every Ticket is non-null, the ticket join matches every row
and `_add_ticket_sharing_count` is a per-row map. -/
theorem add_ticket_sharing_count_eq_map (rows : List Passenger)
    (h : ∀ r ∈ rows, r.ticket ≠ none) :
    add_ticket_sharing_count rows =
      rows.map (fun r =>
        { r with ticketShareCount := some (ticket_share_of rows r.ticket) }) := by
  apply filterMap_eq_map_of_some
  intro r hr
  rcases hrt : r.ticket with _ | t
  · exact absurd hrt (h r hr)
  · have hmem : some t ∈ (rows.map (fun p => p.ticket)).dedup :=
      List.mem_dedup.mpr (List.mem_map.mpr ⟨r, hr, hrt⟩)
    simp only [hrt]
    rw [ticket_share_table, find?_map_pair (ticket_share_of rows) (some t) _ hmem,
      Option.map_some']

/-- When every Title is non-null, the age-imputation join matches every
row and `_impute_missing_age_based_on_title` is a per-row map. -/
theorem impute_missing_age_eq_map (rows : List Passenger)
    (h : ∀ r ∈ rows, r.title ≠ none) :
    impute_missing_age_based_on_title rows =
      rows.map (fun r =>
        { r with age := match r.age with
            | some a => some a
            | none => (average_age_of rows r.title).map (fun z => (z : ℚ)) }) := by
  apply filterMap_eq_map_of_some
  intro r hr
  rcases hrt : r.title with _ | t
  · exact absurd hrt (h r hr)
  · have hmem : some t ∈ (rows.map (fun p => p.title)).dedup :=
      List.mem_dedup.mpr (List.mem_map.mpr ⟨r, hr, hrt⟩)
    simp only [hrt]
    rw [average_age_by_title, find?_map_pair (average_age_of rows) (some t) _ hmem,
      Option.map_some']

/-- Consolidation never changes ticket or cabin and never turns the
Title nullity around. -/
theorem consolidate_titles_row_fields (toCons : List (Option String)) (r : Passenger) :
    (consolidate_titles_row toCons r).ticket = r.ticket ∧
    (consolidate_titles_row toCons r).cabin = r.cabin ∧
    ((consolidate_titles_row toCons r).title = none ↔ r.title = none) := by
  unfold consolidate_titles_row
  rcases hrt : r.title with _ | t
  · simp [hrt]
  · simp only [hrt]
    by_cases hmem : some t ∈ toCons
    · simp [hmem]
    · simp [hmem, hrt]

/-- C1 counterexample: a one-row table whose Name defeats the title
regex (Title null) loses its row in `prepare_data` — the age-imputation
inner join on Title drops it, so the row count is not preserved. -/
theorem prepare_data_drops_row_counterexample :
    (prepare_data (fun _ => 0) [titleLessRow]).length ≠
      ([titleLessRow] : List Passenger).length := by
  decide

/-- C1 (amended): `prepare_data` preserves the row count provided every
row carries a non-null Ticket and a Name the title regex matches; the
cabin join is always safe (`_fillna_cabin` runs first), while a null
Title or Ticket join key would drop its row. -/
theorem prepare_data_length (log10 : ℚ → ℚ) (rows : List Passenger)
    (hticket : ∀ r ∈ rows, r.ticket ≠ none)
    (hname : ∀ r ∈ rows, r.name.bind extract_title_from_name ≠ none) :
    (prepare_data log10 rows).length = rows.length := by
  have h4 : ∀ r ∈ fillna_embarked (fillna_fare (fillna_cabin
      (coerce_numeric_columns rows))),
      (r.ticket ≠ none ∧ r.name.bind extract_title_from_name ≠ none) ∧
        r.cabin ≠ none := by
    unfold fillna_embarked fillna_fare fillna_cabin coerce_numeric_columns
    exact forall_mem_map
      (fun r : Passenger => (r.ticket ≠ none ∧
        r.name.bind extract_title_from_name ≠ none) ∧ r.cabin ≠ none)
      (fun r : Passenger => (r.ticket ≠ none ∧
        r.name.bind extract_title_from_name ≠ none) ∧ r.cabin ≠ none)
      (fun r hr => hr)
      (forall_mem_map
        (fun r : Passenger => (r.ticket ≠ none ∧
          r.name.bind extract_title_from_name ≠ none) ∧ r.cabin ≠ none)
        (fun r : Passenger => (r.ticket ≠ none ∧
          r.name.bind extract_title_from_name ≠ none) ∧ r.cabin ≠ none)
        (fun r hr => hr)
        (forall_mem_map
          (fun r : Passenger => r.ticket ≠ none ∧
            r.name.bind extract_title_from_name ≠ none)
          (fun r : Passenger => (r.ticket ≠ none ∧
            r.name.bind extract_title_from_name ≠ none) ∧ r.cabin ≠ none)
          (fun r hr => ⟨hr, by simp [fillna_cabin_row]⟩)
          (forall_mem_map
            (fun r : Passenger => r.ticket ≠ none ∧
              r.name.bind extract_title_from_name ≠ none)
            (fun r : Passenger => r.ticket ≠ none ∧
              r.name.bind extract_title_from_name ≠ none)
            (fun r hr => hr)
            (fun r hr => ⟨hticket r hr, hname r hr⟩))))
  have h5 : ∀ r ∈ extract_title_from_name_stage (fillna_embarked (fillna_fare
      (fillna_cabin (coerce_numeric_columns rows)))),
      r.ticket ≠ none ∧ r.title ≠ none ∧ r.cabin ≠ none := by
    unfold extract_title_from_name_stage
    exact forall_mem_map _ _ (fun r hr => ⟨hr.1.1, hr.1.2, hr.2⟩) h4
  have h6 : ∀ r ∈ consolidate_titles (extract_title_from_name_stage (fillna_embarked
      (fillna_fare (fillna_cabin (coerce_numeric_columns rows))))),
      r.ticket ≠ none ∧ r.title ≠ none ∧ r.cabin ≠ none := by
    unfold consolidate_titles
    refine forall_mem_map
      (fun r : Passenger => r.ticket ≠ none ∧ r.title ≠ none ∧ r.cabin ≠ none)
      (fun r : Passenger => r.ticket ≠ none ∧ r.title ≠ none ∧ r.cabin ≠ none)
      ?_ h5
    intro r hr
    have hf := consolidate_titles_row_fields
      (titles_to_consolidate (extract_title_from_name_stage (fillna_embarked
        (fillna_fare (fillna_cabin (coerce_numeric_columns rows)))))) r
    exact ⟨hf.1 ▸ hr.1, fun hn => hr.2.1 (hf.2.2.mp hn), hf.2.1 ▸ hr.2.2⟩
  have h7eq := add_cabin_occupancy_eq_map _ (fun r hr => (h6 r hr).2.2)
  have h7 : ∀ r ∈ add_cabin_occupancy (consolidate_titles
      (extract_title_from_name_stage (fillna_embarked (fillna_fare
        (fillna_cabin (coerce_numeric_columns rows)))))),
      r.ticket ≠ none ∧ r.title ≠ none := by
    rw [h7eq]
    exact forall_mem_map _ _ (fun r hr => ⟨hr.1, hr.2.1⟩) h6
  have h8eq := add_ticket_sharing_count_eq_map _ (fun r hr => (h7 r hr).1)
  have h8 : ∀ r ∈ add_ticket_sharing_count (add_cabin_occupancy (consolidate_titles
      (extract_title_from_name_stage (fillna_embarked (fillna_fare
        (fillna_cabin (coerce_numeric_columns rows))))))),
      r.title ≠ none := by
    rw [h8eq]
    exact forall_mem_map _ _ (fun r hr => hr.2) h7
  have h10 : ∀ r ∈ add_log10_of_fare log10 (extract_cabin_level
      (add_ticket_sharing_count (add_cabin_occupancy (consolidate_titles
        (extract_title_from_name_stage (fillna_embarked (fillna_fare
          (fillna_cabin (coerce_numeric_columns rows))))))))),
      r.title ≠ none := by
    unfold add_log10_of_fare extract_cabin_level
    exact forall_mem_map
      (fun r : Passenger => r.title ≠ none)
      (fun r : Passenger => r.title ≠ none)
      (fun r hr => hr)
      (forall_mem_map
        (fun r : Passenger => r.title ≠ none)
        (fun r : Passenger => r.title ≠ none)
        (fun r hr => hr) h8)
  have h11eq := impute_missing_age_eq_map _ h10
  unfold prepare_data convert_embarked_to_location_names convert_survived_to_string
    convert_float_to_int resolve_level_t calculate_decade_from_age
  rw [List.length_map, List.length_map, List.length_map, List.length_map,
    List.length_map, h11eq, List.length_map]
  unfold add_log10_of_fare extract_cabin_level
  rw [List.length_map, List.length_map, h8eq, List.length_map, h7eq, List.length_map]
  unfold consolidate_titles extract_title_from_name_stage fillna_embarked fillna_fare
    fillna_cabin coerce_numeric_columns
  rw [List.length_map, List.length_map, List.length_map, List.length_map,
    List.length_map, List.length_map]

theorem prepare_data_length_witness :
    (prepare_data (fun _ => 0) pipelineWitnessRows).length =
      pipelineWitnessRows.length :=
  prepare_data_length (fun _ => 0) pipelineWitnessRows (by decide) (by decide)

end StreamlitDemo
